import Mathlib

/-!
# OpenCL host utilities: a shallow embedding of `opencl_host_utilities.c`

The three functions modelled here are `ocl_error_string`, `create_opencl_system`
and `destroy_opencl_system`.

Conventions of the embedding.

* Opaque driver handles (`cl_platform_id`, `cl_device_id`, `cl_context`,
  `cl_command_queue`) are natural numbers; a `NULL` handle returned by the
  driver is `none`.
* The OpenCL driver and the host allocator are an explicit environment
  (`Driver`): every answer the C code receives from `malloc` or from a `cl*`
  call is a field of it.
* Every call the C code makes to `malloc`, `free` or the driver is recorded, in
  program order, in a trace (`List Event`).  Diagnostics written to `stderr`
  (`fprintf`, `perror`) are not recorded.
* A value read from past the end of an array is `none`.
* `assert` is active (the source does not define `NDEBUG`).
-/

namespace OpenCLHost

/-! ## Status codes and `ocl_error_string` -/

/-- The value of the macro `CL_SUCCESS` of `CL/cl.h`. -/
def CL_SUCCESS : Int := 0

/-- The static table `error_string` of `ocl_error_string` (source lines 11-74). -/
def error_string : List String :=
  ["CL_SUCCESS",
   "CL_DEVICE_NOT_FOUND",
   "CL_DEVICE_NOT_AVAILABLE",
   "CL_COMPILER_NOT_AVAILABLE",
   "CL_MEM_OBJECT_ALLOCATION_FAILURE",
   "CL_OUT_OF_RESOURCES",
   "CL_OUT_OF_HOST_MEMORY",
   "CL_PROFILING_INFO_NOT_AVAILABLE",
   "CL_MEM_COPY_OVERLAP",
   "CL_IMAGE_FORMAT_MISMATCH",
   "CL_IMAGE_FORMAT_NOT_SUPPORTED",
   "CL_BUILD_PROGRAM_FAILURE",
   "CL_MAP_FAILURE",
   "",
   "",
   "",
   "",
   "",
   "",
   "",
   "",
   "",
   "",
   "",
   "",
   "",
   "",
   "",
   "",
   "",
   "CL_INVALID_VALUE",
   "CL_INVALID_DEVICE_TYPE",
   "CL_INVALID_PLATFORM",
   "CL_INVALID_DEVICE",
   "CL_INVALID_CONTEXT",
   "CL_INVALID_QUEUE_PROPERTIES",
   "CL_INVALID_COMMAND_QUEUE",
   "CL_INVALID_HOST_PTR",
   "CL_INVALID_MEM_OBJECT",
   "CL_INVALID_IMAGE_FORMAT_DESCRIPTOR",
   "CL_INVALID_IMAGE_SIZE",
   "CL_INVALID_SAMPLER",
   "CL_INVALID_BINARY",
   "CL_INVALID_BUILD_OPTIONS",
   "CL_INVALID_PROGRAM",
   "CL_INVALID_PROGRAM_EXECUTABLE",
   "CL_INVALID_KERNEL_NAME",
   "CL_INVALID_KERNEL_DEFINITION",
   "CL_INVALID_KERNEL",
   "CL_INVALID_ARG_INDEX",
   "CL_INVALID_ARG_VALUE",
   "CL_INVALID_ARG_SIZE",
   "CL_INVALID_KERNEL_ARGS",
   "CL_INVALID_WORK_DIMENSION",
   "CL_INVALID_WORK_GROUP_SIZE",
   "CL_INVALID_WORK_ITEM_SIZE",
   "CL_INVALID_GLOBAL_OFFSET",
   "CL_INVALID_EVENT_WAIT_LIST",
   "CL_INVALID_EVENT",
   "CL_INVALID_OPERATION",
   "CL_INVALID_GL_OBJECT",
   "CL_INVALID_BUFFER_SIZE",
   "CL_INVALID_MIP_LEVEL",
   "CL_INVALID_GLOBAL_WORK_SIZE"]

/-- The function `ocl_error_string` (source lines 9-77): `error_string[-ret]`.
The result is `none` when the subscript `-ret` falls outside the table, where
the C expression has no defined value. -/
def ocl_error_string (ret : Int) : Option String :=
  if 0 ≤ -ret then error_string[(-ret).toNat]? else none

/-! ## Data model -/

/-- The host memory blocks that `create_opencl_system` obtains from `malloc`,
named after the variable that receives the pointer. -/
inductive Block
  | system
  | platform_ids
  | platform_vendor_names
  | vendor_name (i : Nat)
  | device_ids
  | command_queues
  deriving DecidableEq

/-- One call to the host allocator or to the OpenCL driver.  `free none` is `free(NULL)`. -/
inductive Event
  | malloc (b : Block) (ok : Bool)
  | free (p : Option Block)
  | clGetPlatformIDs (num_entries : Nat) (ret : Int)
  | clGetPlatformInfo (platform : Nat) (ret : Int)
  | clGetDeviceIDs (platform device_type num_entries : Nat) (ret : Int) (found : Nat)
  | clCreateContext (devices : List Nat) (result : Option Nat)
  | clCreateCommandQueue (i context device_index : Nat) (device : Option Nat)
      (result : Option Nat)
  | clReleaseCommandQueue (i : Nat) (queue : Option Nat) (ret : Int)
  | clReleaseContext (context : Nat) (ret : Int)
  deriving DecidableEq

/-- The struct `opencl_system_t` of `opencl_host_utilities.h`.  The two arrays are
the lists of their elements; the two counts are `cl_int`. -/
structure opencl_system where
  platform_id : Nat
  num_devices : Int
  device_ids : List Nat
  context : Nat
  num_command_queues : Int
  command_queues : List Nat
  deriving DecidableEq

/-- How a call of `create_opencl_system` ends: it returns `NULL`, it returns a
system, an `assert` fails, or it evaluates `%` with a zero divisor. -/
inductive Outcome
  | null
  | system (s : opencl_system)
  | assert_failed
  | undefined
  deriving DecidableEq

/-- A platform as the driver reports it: its handle, its `CL_PLATFORM_VENDOR`
string and the status that `clGetPlatformInfo` returns for it. -/
structure Platform where
  id : Nat
  vendor : String
  info_ret : Int

/-- The environment of the C code: the answers of `malloc` and of the driver. -/
structure Driver where
  /-- Whether the `malloc` that fills the given variable returns non-`NULL`. -/
  malloc_ok : Block → Bool
  /-- Status of `clGetPlatformIDs(0, NULL, &num_platforms)`. -/
  platform_count_ret : Int
  /-- The platforms of the machine, in the order `clGetPlatformIDs` lists them. -/
  platforms : List Platform
  /-- Status of `clGetPlatformIDs(num_platforms, platform_ids, NULL)`. -/
  platform_ids_ret : Int
  /-- Status of `clGetDeviceIDs`. -/
  device_ids_ret : Int
  /-- The devices of a platform that match a device type. -/
  devices : Nat → Nat → List Nat
  /-- Result of `clCreateContext` on a device list (`none` is `NULL`). -/
  create_context : List Nat → Option Nat
  /-- Result of the `i`-th call of `clCreateCommandQueue` (`none` is `NULL`). -/
  create_queue : Nat → Option Nat
  /-- Status of the `i`-th call of `clReleaseCommandQueue`. -/
  release_queue_ret : Nat → Int
  /-- Status of `clReleaseContext`. -/
  release_context_ret : Int

/-- Conversion of a `cl_uint` to the `cl_int` fields of the struct. -/
def to_cl_int (n : Nat) : Int :=
  if n % 2 ^ 32 < 2 ^ 31 then ((n % 2 ^ 32 : Nat) : Int) else ((n % 2 ^ 32 : Nat) : Int) - 2 ^ 32

/-! ## `create_opencl_system` -/

/-- Source lines 144-156: `for (i = 0; i < num_platforms; i++)` allocating
`platform_vendor_names[i]`, from index `i` with `n` iterations left.  Returns the
calls made and the index at which `malloc` returned `NULL`, if any. -/
def alloc_vendor_names (d : Driver) : Nat → Nat → List Event × Option Nat
  | _, 0 => ([], none)
  | i, n + 1 =>
    if d.malloc_ok (.vendor_name i) then
      let r := alloc_vendor_names d (i + 1) n
      (.malloc (.vendor_name i) true :: r.1, r.2)
    else ([.malloc (.vendor_name i) false], some i)

/-- The loops `for (j = 0; j < n; j++) free(platform_vendor_names[j]);`
(source lines 150-151, 165-166, 184-185 and 193-194). -/
def free_vendor_names (n : Nat) : List Event :=
  (List.range n).map fun j => Event.free (some (.vendor_name j))

/-- Source lines 159-170: the loop calling `clGetPlatformInfo` on `platform_ids[i]`,
over the remaining entries of the array.  Returns the calls made and whether
every call returned `CL_SUCCESS`. -/
def query_vendor_names : List Platform → List Event × Bool
  | [] => ([], true)
  | p :: ps =>
    if p.info_ret = CL_SUCCESS then
      let r := query_vendor_names ps
      (.clGetPlatformInfo p.id p.info_ret :: r.1, r.2)
    else ([.clGetPlatformInfo p.id p.info_ret], false)

/-- Source lines 173-179: the search loop, over the remaining entries of
`platform_vendor_names` from index `i`; `strcmp(vendor, name) == 0` is equality
of the two strings.  Returns the index at which the loop breaks. -/
def find_vendor (vendor : String) : List String → Nat → Option Nat
  | [], _ => none
  | name :: names, i => if vendor = name then some i else find_vendor vendor names (i + 1)

/-- Source lines 250-266, the successful iterations and the failing call:
`for (i = 0; i < num_command_queues; i++)` from index `i` with `n` iterations
left.  Returns the calls made, the queues created and the index of the call that
returned `NULL`, if any. -/
def create_command_queues (d : Driver) (context : Nat) (device_ids : List Nat)
    (num_devices : Nat) : Nat → Nat → List Event × List Nat × Option Nat
  | _, 0 => ([], [], none)
  | i, n + 1 =>
    match d.create_queue i with
    | none =>
      ([.clCreateCommandQueue i context (i / num_devices) device_ids[i / num_devices]? none],
        [], some i)
    | some q =>
      let r := create_command_queues d context device_ids num_devices (i + 1) n
      (.clCreateCommandQueue i context (i / num_devices) device_ids[i / num_devices]? (some q)
        :: r.1, q :: r.2.1, r.2.2)

/-- Source lines 255-258: `for (j = 0; j < i; j++)` releasing `command_queues[j]`,
over the queues created so far, from index `j`.  A failing release is only
reported on `stderr`. -/
def release_created_queues (d : Driver) : Nat → List Nat → List Event
  | _, [] => []
  | j, q :: qs =>
    .clReleaseCommandQueue j (some q) (d.release_queue_ret j) :: release_created_queues d (j + 1) qs

/-- Source lines 102-195 of `create_opencl_system`: from the allocation of the
struct to the release of the platform buffers.  Returns the selected platform, or
the way the function ends, and the calls made. -/
def resolve_platform (d : Driver) (vendor : String) : Except Outcome Nat × List Event :=
  if d.malloc_ok .system = false then (.error .null, [.malloc .system false])
  else
  let t := [Event.malloc .system true, .clGetPlatformIDs 0 d.platform_count_ret]
  if d.platform_count_ret ≠ CL_SUCCESS then (.error .null, t ++ [.free (some .system)])
  else
  let num_platforms := d.platforms.length
  if num_platforms = 0 then (.error .assert_failed, t)
  else if d.malloc_ok .platform_ids = false then
    (.error .null, t ++ [.malloc .platform_ids false])
  else
  let t := t ++ [.malloc .platform_ids true, .clGetPlatformIDs num_platforms d.platform_ids_ret]
  if d.platform_ids_ret ≠ CL_SUCCESS then
    (.error .null, t ++ [.free (some .system), .free (some .platform_ids)])
  else
  let platform_ids := d.platforms.map Platform.id
  if d.malloc_ok .platform_vendor_names = false then
    (.error .null, t ++ [.malloc .platform_vendor_names false, .free (some .system),
      .free (some .platform_ids), .free none])
  else
  let t := t ++ [.malloc .platform_vendor_names true]
  match alloc_vendor_names d 0 num_platforms with
  | (ta, some i) =>
    (.error .null, t ++ ta ++ [.free (some .system), .free (some .platform_ids)]
      ++ free_vendor_names i ++ [.free (some .platform_vendor_names)])
  | (ta, none) =>
  let t := t ++ ta
  match query_vendor_names d.platforms with
  | (tq, false) =>
    (.error .null, t ++ tq ++ [.free (some .system), .free (some .platform_ids)]
      ++ free_vendor_names num_platforms ++ [.free (some .platform_vendor_names)])
  | (tq, true) =>
  let t := t ++ tq
  let platform_vendor_names := d.platforms.map Platform.vendor
  match find_vendor vendor platform_vendor_names 0 with
  | none =>
    (.error .null, t ++ [.free (some .system), .free (some .platform_ids)]
      ++ free_vendor_names num_platforms ++ [.free (some .platform_vendor_names)])
  | some i =>
    (.ok (platform_ids.getD i 0), t ++ [.free (some .platform_ids)]
      ++ free_vendor_names num_platforms ++ [.free (some .platform_vendor_names)])

/-- Source lines 197-270 of `create_opencl_system`: device array, context and
command queues, for the platform stored in the struct. -/
def build_system (d : Driver) (device_type num_devices num_command_queues platform_id : Nat) :
    Outcome × List Event :=
  if d.malloc_ok .device_ids = false then
    (.null, [.malloc .device_ids false, .free (some .system)])
  else
  let available := d.devices platform_id device_type
  let num_devices_found := available.length
  let device_ids := available.take num_devices
  let t := [Event.malloc .device_ids true,
    .clGetDeviceIDs platform_id device_type num_devices d.device_ids_ret num_devices_found]
  if d.device_ids_ret ≠ CL_SUCCESS then
    (.null, t ++ [.free (some .device_ids), .free (some .system)])
  else if num_devices_found ≠ num_devices then
    (.null, t ++ [.free (some .device_ids), .free (some .system)])
  else
  match d.create_context device_ids with
  | none =>
    (.null, t ++ [.clCreateContext device_ids none, .free (some .device_ids),
      .free (some .system)])
  | some context =>
  let t := t ++ [.clCreateContext device_ids (some context)]
  if d.malloc_ok .command_queues = false then
    (.null, t ++ [.malloc .command_queues false, .free (some .device_ids),
      .clReleaseContext context d.release_context_ret, .free (some .system)])
  else
  let t := t ++ [.malloc .command_queues true]
  match create_command_queues d context device_ids num_devices 0 num_command_queues with
  | (tc, created, some _) =>
    (.null, t ++ tc ++ [.free (some .device_ids)] ++ release_created_queues d 0 created
      ++ [.clReleaseContext context d.release_context_ret, .free (some .command_queues),
        .free (some .system)])
  | (tc, created, none) =>
    (.system
      { platform_id := platform_id
        num_devices := to_cl_int num_devices
        device_ids := device_ids
        context := context
        num_command_queues := to_cl_int num_command_queues
        command_queues := created },
      t ++ tc)

/-- The function `create_opencl_system` (source lines 86-270).  `num_devices` and
`num_command_queues` are `cl_uint`; `num_command_queues % num_devices` has no
defined value when `num_devices` is zero. -/
def create_opencl_system (d : Driver) (device_type num_devices num_command_queues : Nat)
    (vendor : String) : Outcome × List Event :=
  if num_devices = 0 then (.undefined, [])
  else if num_command_queues % num_devices ≠ 0 then (.null, [])
  else
  match resolve_platform d vendor with
  | (.error o, t) => (o, t)
  | (.ok platform_id, t) =>
    let r := build_system d device_type num_devices num_command_queues platform_id
    (r.1, t ++ r.2)

/-! ## `destroy_opencl_system` -/

/-- Source lines 280-285: `for (i = 0; i < system->num_command_queues; i++)`
releasing `command_queues[i]`, from index `i` with `n` iterations left.  Returns
the calls made and whether every release returned `CL_SUCCESS`. -/
def release_command_queues (d : Driver) (command_queues : List Nat) :
    Nat → Nat → List Event × Bool
  | _, 0 => ([], true)
  | i, n + 1 =>
    if d.release_queue_ret i = CL_SUCCESS then
      let r := release_command_queues d command_queues (i + 1) n
      (.clReleaseCommandQueue i command_queues[i]? (d.release_queue_ret i) :: r.1, r.2)
    else ([.clReleaseCommandQueue i command_queues[i]? (d.release_queue_ret i)], false)

/-- The function `destroy_opencl_system` (source lines 275-299): the returned
`cl_int` and the calls made.  The loop counter is a `cl_int` starting at zero, so
the loop body runs `num_command_queues` times when that count is positive and
not at all otherwise. -/
def destroy_opencl_system (d : Driver) (system : opencl_system) : Int × List Event :=
  match release_command_queues d system.command_queues 0 system.num_command_queues.toNat with
  | (tq, false) => (-1, tq)
  | (tq, true) =>
    if d.release_context_ret ≠ CL_SUCCESS then
      (-1, tq ++ [.clReleaseContext system.context d.release_context_ret])
    else
      (0, tq ++ [.clReleaseContext system.context d.release_context_ret,
        .free (some .device_ids), .free (some .system)])

/-! ## Observations on a trace -/

/-- The part of the system a call addresses: host memory, platforms, devices,
the context, or command queues. -/
inductive Kind
  | host
  | platform
  | device
  | context
  | queue
  deriving DecidableEq

/-- The kind of a call. -/
def Event.kind : Event → Kind
  | .malloc _ _ => .host
  | .free _ => .host
  | .clGetPlatformIDs _ _ => .platform
  | .clGetPlatformInfo _ _ => .platform
  | .clGetDeviceIDs _ _ _ _ _ => .device
  | .clCreateContext _ _ => .context
  | .clCreateCommandQueue _ _ _ _ _ => .queue
  | .clReleaseCommandQueue _ _ _ => .queue
  | .clReleaseContext _ _ => .context

/-- Something a call can acquire and a later call must release. -/
inductive Resource
  | block (b : Block)
  | context (c : Nat)
  | queue (i q : Nat)
  deriving DecidableEq

/-- The resource a call acquires, if any. -/
def Event.acquires : Event → Option Resource
  | .malloc b true => some (.block b)
  | .clCreateContext _ (some c) => some (.context c)
  | .clCreateCommandQueue i _ _ _ (some q) => some (.queue i q)
  | _ => none

/-- The resource a call releases, if any. -/
def Event.releases : Event → Option Resource
  | .free (some b) => some (.block b)
  | .clReleaseContext c _ => some (.context c)
  | .clReleaseCommandQueue i (some q) _ => some (.queue i q)
  | _ => none

/-- The resources acquired in a trace on which no release call is made in it. -/
def leaked (t : List Event) : List Resource :=
  (t.filterMap Event.acquires).filter fun r => !(t.filterMap Event.releases).contains r

/-- The `clCreateCommandQueue` calls of a trace: queue index and index of the
device in `device_ids`. -/
def queue_devices (t : List Event) : List (Nat × Nat) :=
  t.filterMap fun
    | .clCreateCommandQueue i _ device_index _ _ => some (i, device_index)
    | _ => none

/-- The `clReleaseCommandQueue` calls of a trace: queue index and handle. -/
def queue_releases (t : List Event) : List (Nat × Option Nat) :=
  t.filterMap fun
    | .clReleaseCommandQueue i q _ => some (i, q)
    | _ => none

/-- The contexts on which a trace calls `clReleaseContext`. -/
def context_releases (t : List Event) : List Nat :=
  t.filterMap fun
    | .clReleaseContext c _ => some c
    | _ => none

/-! ## Drivers used to evaluate the code -/

/-- A machine with three platforms, two devices on the second one, on which
every allocation and every driver call succeeds. -/
def sample_driver : Driver where
  malloc_ok := fun _ => true
  platform_count_ret := CL_SUCCESS
  platforms := [⟨10, "Intel", CL_SUCCESS⟩, ⟨11, "AMD", CL_SUCCESS⟩, ⟨12, "AMD", CL_SUCCESS⟩]
  platform_ids_ret := CL_SUCCESS
  device_ids_ret := CL_SUCCESS
  devices := fun p _ => if p = 11 then [100, 101] else if p = 10 then [90] else []
  create_context := fun _ => some 7
  create_queue := fun i => some (200 + i)
  release_queue_ret := fun _ => CL_SUCCESS
  release_context_ret := CL_SUCCESS

/-- A system with three command queues. -/
def sample_system : opencl_system where
  platform_id := 11
  num_devices := 2
  device_ids := [100, 101]
  context := 7
  num_command_queues := 3
  command_queues := [200, 201, 202]

/-- The all-success machine, except that the release of queue 1 fails with
`CL_INVALID_COMMAND_QUEUE`. -/
def queue_release_fails : Driver :=
  { sample_driver with release_queue_ret := fun i => if i = 1 then -36 else CL_SUCCESS }

/-- The all-success machine, except that the release of the context fails with
`CL_INVALID_CONTEXT`. -/
def context_release_fails : Driver :=
  { sample_driver with release_context_ret := -34 }

/-- The all-success machine, except that the `malloc` of `platform_ids` returns
`NULL`. -/
def platform_ids_alloc_fails : Driver :=
  { sample_driver with malloc_ok := fun b => decide (b ≠ Block.platform_ids) }

/-- The all-success machine, except that the creation of queue 2 returns `NULL`. -/
def queue_creation_fails : Driver :=
  { sample_driver with create_queue := fun i => if i = 2 then none else some (200 + i) }

/-- The device index that the specification gives for queue `i`:
`i / (queueCount / deviceCount)`. -/
def spec_device_index (num_devices num_command_queues i : Nat) : Nat :=
  i / (num_command_queues / num_devices)

/-- Modelled from the spec: the canonical names of the status codes, which are
the status macros of `CL/cl.h` (OpenCL 1.0) with their values; the source
includes that header and the repository does not contain it. -/
def cl_status_macros : List (String × Int) :=
  [("CL_SUCCESS", 0),
   ("CL_DEVICE_NOT_FOUND", -1),
   ("CL_DEVICE_NOT_AVAILABLE", -2),
   ("CL_COMPILER_NOT_AVAILABLE", -3),
   ("CL_MEM_OBJECT_ALLOCATION_FAILURE", -4),
   ("CL_OUT_OF_RESOURCES", -5),
   ("CL_OUT_OF_HOST_MEMORY", -6),
   ("CL_PROFILING_INFO_NOT_AVAILABLE", -7),
   ("CL_MEM_COPY_OVERLAP", -8),
   ("CL_IMAGE_FORMAT_MISMATCH", -9),
   ("CL_IMAGE_FORMAT_NOT_SUPPORTED", -10),
   ("CL_BUILD_PROGRAM_FAILURE", -11),
   ("CL_MAP_FAILURE", -12),
   ("CL_INVALID_VALUE", -30),
   ("CL_INVALID_DEVICE_TYPE", -31),
   ("CL_INVALID_PLATFORM", -32),
   ("CL_INVALID_DEVICE", -33),
   ("CL_INVALID_CONTEXT", -34),
   ("CL_INVALID_QUEUE_PROPERTIES", -35),
   ("CL_INVALID_COMMAND_QUEUE", -36),
   ("CL_INVALID_HOST_PTR", -37),
   ("CL_INVALID_MEM_OBJECT", -38),
   ("CL_INVALID_IMAGE_FORMAT_DESCRIPTOR", -39),
   ("CL_INVALID_IMAGE_SIZE", -40),
   ("CL_INVALID_SAMPLER", -41),
   ("CL_INVALID_BINARY", -42),
   ("CL_INVALID_BUILD_OPTIONS", -43),
   ("CL_INVALID_PROGRAM", -44),
   ("CL_INVALID_PROGRAM_EXECUTABLE", -45),
   ("CL_INVALID_KERNEL_NAME", -46),
   ("CL_INVALID_KERNEL_DEFINITION", -47),
   ("CL_INVALID_KERNEL", -48),
   ("CL_INVALID_ARG_INDEX", -49),
   ("CL_INVALID_ARG_VALUE", -50),
   ("CL_INVALID_ARG_SIZE", -51),
   ("CL_INVALID_KERNEL_ARGS", -52),
   ("CL_INVALID_WORK_DIMENSION", -53),
   ("CL_INVALID_WORK_GROUP_SIZE", -54),
   ("CL_INVALID_WORK_ITEM_SIZE", -55),
   ("CL_INVALID_GLOBAL_OFFSET", -56),
   ("CL_INVALID_EVENT_WAIT_LIST", -57),
   ("CL_INVALID_EVENT", -58),
   ("CL_INVALID_OPERATION", -59),
   ("CL_INVALID_GL_OBJECT", -60),
   ("CL_INVALID_BUFFER_SIZE", -61),
   ("CL_INVALID_MIP_LEVEL", -62),
   ("CL_INVALID_GLOBAL_WORK_SIZE", -63)]

/-- The canonical name of a status code: the name of the macro of
`cl_status_macros` that has this value, if there is one. -/
def canonical_name (c : Int) : Option String :=
  (cl_status_macros.find? fun m => decide (m.2 = c)).map fun m => m.1

/-! ## `ocl_error_string` -/

/-- C9: for every status code `c` with `-63 ≤ c ≤ 0` the lookup is in bounds of the
64-entry table and returns the entry at index `-c`; that entry is the empty
string exactly when `-29 ≤ c ≤ -13`, which are exactly the codes without a
canonical name; for every other code the entry is the canonical name of `c`,
and it is not empty.  Code `0` gives `CL_SUCCESS`, `-12` gives `CL_MAP_FAILURE`,
`-30` gives `CL_INVALID_VALUE` and `-63` gives `CL_INVALID_GLOBAL_WORK_SIZE`. -/
theorem ocl_error_string_table (c : Int) (hlo : -63 ≤ c) (hhi : c ≤ 0) :
    error_string.length = 64 ∧
    (∃ s, ocl_error_string c = some s ∧ error_string[(-c).toNat]? = some s ∧
      (s = "" ↔ -29 ≤ c ∧ c ≤ -13) ∧
      (canonical_name c = none ↔ -29 ≤ c ∧ c ≤ -13) ∧
      (¬ (-29 ≤ c ∧ c ≤ -13) → canonical_name c = some s ∧ s ≠ "")) ∧
    ocl_error_string 0 = some "CL_SUCCESS" ∧
    ocl_error_string (-12) = some "CL_MAP_FAILURE" ∧
    ocl_error_string (-30) = some "CL_INVALID_VALUE" ∧
    ocl_error_string (-63) = some "CL_INVALID_GLOBAL_WORK_SIZE" := by
  refine ⟨by decide, ?_, by decide, by decide, by decide, by decide⟩
  interval_cases c <;> exact ⟨_, rfl, rfl, by decide, by decide, by decide⟩

/-- Witness for C9 at the code `-5`. -/
theorem ocl_error_string_table_witness :
    error_string.length = 64 ∧
    (∃ s, ocl_error_string (-5) = some s ∧ error_string[(5 : Int).toNat]? = some s ∧
      (s = "" ↔ (-29 : Int) ≤ -5 ∧ (-5 : Int) ≤ -13) ∧
      (canonical_name (-5) = none ↔ (-29 : Int) ≤ -5 ∧ (-5 : Int) ≤ -13) ∧
      (¬ ((-29 : Int) ≤ -5 ∧ (-5 : Int) ≤ -13) → canonical_name (-5) = some s ∧ s ≠ "")) ∧
    ocl_error_string 0 = some "CL_SUCCESS" ∧
    ocl_error_string (-12) = some "CL_MAP_FAILURE" ∧
    ocl_error_string (-30) = some "CL_INVALID_VALUE" ∧
    ocl_error_string (-63) = some "CL_INVALID_GLOBAL_WORK_SIZE" :=
  ocl_error_string_table (-5) (by decide) (by decide)

/-! ## `destroy_opencl_system` -/

/-- When the next `n` releases succeed the loop of `destroy_opencl_system`
releases the queues `i, i+1, ..., i+n-1` in that order and runs to its end. -/
theorem release_command_queues_ok (d : Driver) (qs : List Nat) :
    ∀ (n i : Nat), (∀ j, i ≤ j → j < i + n → d.release_queue_ret j = CL_SUCCESS) →
      release_command_queues d qs i n =
        ((List.range' i n).map fun j => Event.clReleaseCommandQueue j qs[j]? CL_SUCCESS, true) := by
  intro n
  induction n with
  | zero => intro i _; simp [release_command_queues]
  | succ n ih =>
    intro i h
    have hi : d.release_queue_ret i = CL_SUCCESS := h i (le_refl i) (by omega)
    have hrest := ih (i + 1) (fun j h1 h2 => h j (by omega) (by omega))
    simp [release_command_queues, hi, hrest, List.range'_succ]

/-- When the release of queue `i + k` is the first to fail the loop of
`destroy_opencl_system` releases `i, ..., i+k-1`, attempts `i + k` and stops. -/
theorem release_command_queues_fail (d : Driver) (qs : List Nat) :
    ∀ (k n i : Nat), k < n →
      (∀ j, i ≤ j → j < i + k → d.release_queue_ret j = CL_SUCCESS) →
      d.release_queue_ret (i + k) ≠ CL_SUCCESS →
      release_command_queues d qs i n =
        (((List.range' i k).map fun j => Event.clReleaseCommandQueue j qs[j]? CL_SUCCESS) ++
          [Event.clReleaseCommandQueue (i + k) qs[i + k]? (d.release_queue_ret (i + k))], false) := by
  intro k
  induction k with
  | zero =>
    intro n i hn _ hk
    obtain ⟨m, rfl⟩ : ∃ m, n = m + 1 := ⟨n - 1, by omega⟩
    simp only [Nat.add_zero] at hk
    simp [release_command_queues, hk]
  | succ k ih =>
    intro n i hn h hk
    obtain ⟨m, rfl⟩ : ∃ m, n = m + 1 := ⟨n - 1, by omega⟩
    have hi : d.release_queue_ret i = CL_SUCCESS := h i (le_refl i) (by omega)
    have e : i + (k + 1) = i + 1 + k := by omega
    rw [e] at hk ⊢
    have hrest := ih m (i + 1) (by omega) (fun j h1 h2 => h j (by omega) (by omega)) hk
    simp [release_command_queues, hi, hrest, List.range'_succ]

/-- The releases of the queues of an `n`-element array, listed by index, are the
releases of its elements in order. -/
theorem range_map_getElem_eq_enum {β : Type} (qs : List Nat) (f : Nat → Option Nat → β) :
    ((List.range qs.length).map fun j => f j qs[j]?) = qs.enum.map fun p => f p.1 (some p.2) := by
  apply List.ext_getElem
  · simp
  · intro i h1 h2
    simp at h1
    simp [h1]

/-- C7: on a system with `n` command queues on which every release call succeeds,
`destroy_opencl_system` calls `clReleaseCommandQueue` on queues `0, 1, ..., n-1`
in that order, once each, then `clReleaseContext` once, then frees the device
array (and the struct), and returns `0`. -/
theorem destroy_releases_in_order (d : Driver) (s : opencl_system) (n : Nat)
    (hn : s.num_command_queues = (n : Int)) (hlen : s.command_queues.length = n)
    (hq : ∀ i, i < n → d.release_queue_ret i = CL_SUCCESS)
    (hc : d.release_context_ret = CL_SUCCESS) :
    destroy_opencl_system d s =
      (0, (s.command_queues.enum.map fun p => Event.clReleaseCommandQueue p.1 (some p.2) CL_SUCCESS)
        ++ [Event.clReleaseContext s.context CL_SUCCESS, Event.free (some Block.device_ids),
          Event.free (some Block.system)]) := by
  have h := release_command_queues_ok d s.command_queues n 0 (fun j _ h2 => hq j (by omega))
  have e := range_map_getElem_eq_enum s.command_queues
    (fun j q => Event.clReleaseCommandQueue j q CL_SUCCESS)
  rw [hlen] at e
  rw [← e]
  simp [destroy_opencl_system, hn, h, hc, List.range_eq_range']

/-- Witness for C7: the three-queue sample system on the all-success driver. -/
theorem destroy_releases_in_order_witness :
    destroy_opencl_system sample_driver sample_system =
      (0, [Event.clReleaseCommandQueue 0 (some 200) CL_SUCCESS,
        Event.clReleaseCommandQueue 1 (some 201) CL_SUCCESS,
        Event.clReleaseCommandQueue 2 (some 202) CL_SUCCESS,
        Event.clReleaseContext 7 CL_SUCCESS, Event.free (some Block.device_ids),
        Event.free (some Block.system)]) :=
  destroy_releases_in_order sample_driver sample_system 3 rfl rfl (fun _ _ => rfl) rfl

/-- The releases of the first `k` queues of an array, listed by index. -/
theorem range_map_getElem_eq_enum_take {β : Type} (qs : List Nat) (k : Nat) (hk : k ≤ qs.length)
    (f : Nat → Option Nat → β) :
    ((List.range k).map fun j => f j qs[j]?) =
      (qs.take k).enum.map fun p => f p.1 (some p.2) := by
  have e := range_map_getElem_eq_enum (qs.take k) f
  have hl : (qs.take k).length = k := by simp [hk]
  rw [hl] at e
  rw [← e]
  apply List.map_congr_left
  intro j hj
  simp at hj
  simp [List.getElem?_take, hj]

/-- C8: if the release of queue `k` is the first release call to fail,
`destroy_opencl_system` returns `-1` after releasing queues `0..k-1` and
attempting queue `k`; it makes no other call (no release of a later queue, no
release of the context, no `free`).  If every queue release succeeds and the
release of the context fails, it returns `-1` after that call, without any
`free`. -/
theorem destroy_stops_at_first_failure (d : Driver) (s : opencl_system) (n : Nat)
    (hn : s.num_command_queues = (n : Int)) (hlen : s.command_queues.length = n) :
    (∀ k, k < n → (∀ i, i < k → d.release_queue_ret i = CL_SUCCESS) →
      d.release_queue_ret k ≠ CL_SUCCESS →
      (destroy_opencl_system d s).1 = -1 ∧
      (destroy_opencl_system d s).2 =
        ((s.command_queues.take k).enum.map fun p =>
            Event.clReleaseCommandQueue p.1 (some p.2) CL_SUCCESS) ++
          [Event.clReleaseCommandQueue k s.command_queues[k]? (d.release_queue_ret k)] ∧
      context_releases (destroy_opencl_system d s).2 = [] ∧
      ∀ e ∈ (destroy_opencl_system d s).2, e.kind = Kind.queue) ∧
    ((∀ i, i < n → d.release_queue_ret i = CL_SUCCESS) →
      d.release_context_ret ≠ CL_SUCCESS →
      (destroy_opencl_system d s).1 = -1 ∧
      (destroy_opencl_system d s).2 =
        (s.command_queues.enum.map fun p =>
            Event.clReleaseCommandQueue p.1 (some p.2) CL_SUCCESS) ++
          [Event.clReleaseContext s.context d.release_context_ret] ∧
      ∀ e ∈ (destroy_opencl_system d s).2, e.kind ≠ Kind.host) := by
  constructor
  · intro k hk hok hfail
    have h := release_command_queues_fail d s.command_queues k n 0 hk
      (fun j _ h2 => hok j (by omega)) (by simpa using hfail)
    have e := range_map_getElem_eq_enum_take s.command_queues k (by omega)
      (fun j q => Event.clReleaseCommandQueue j q CL_SUCCESS)
    have hd : destroy_opencl_system d s =
        (-1, ((s.command_queues.take k).enum.map fun p =>
            Event.clReleaseCommandQueue p.1 (some p.2) CL_SUCCESS) ++
          [Event.clReleaseCommandQueue k s.command_queues[k]? (d.release_queue_ret k)]) := by
      rw [← e]
      simp [destroy_opencl_system, hn, h, List.range_eq_range']
    rw [hd]
    refine ⟨rfl, rfl, ?_, ?_⟩
    · simp [context_releases, List.filterMap_append, List.filterMap_map, Function.comp_def]
    · intro ev hev
      simp at hev
      rcases hev with ⟨a, b, _, rfl⟩ | rfl <;> rfl
  · intro hok hfail
    have h := release_command_queues_ok d s.command_queues n 0 (fun j _ h2 => hok j (by omega))
    have e := range_map_getElem_eq_enum s.command_queues
      (fun j q => Event.clReleaseCommandQueue j q CL_SUCCESS)
    rw [hlen] at e
    have hd : destroy_opencl_system d s =
        (-1, (s.command_queues.enum.map fun p =>
            Event.clReleaseCommandQueue p.1 (some p.2) CL_SUCCESS) ++
          [Event.clReleaseContext s.context d.release_context_ret]) := by
      rw [← e]
      simp [destroy_opencl_system, hn, h, hfail, List.range_eq_range']
    rw [hd]
    refine ⟨rfl, rfl, ?_⟩
    intro ev hev
    simp at hev
    rcases hev with ⟨a, b, _, rfl⟩ | rfl <;> simp [Event.kind]

/-- Witness for C8: on the three-queue sample system, a failing release of queue 1
stops the teardown after two release calls, and a failing release of the context
stops it before any `free`. -/
theorem destroy_stops_at_first_failure_witness :
    ((destroy_opencl_system queue_release_fails sample_system).1 = -1 ∧
      (destroy_opencl_system queue_release_fails sample_system).2 =
        [Event.clReleaseCommandQueue 0 (some 200) CL_SUCCESS,
          Event.clReleaseCommandQueue 1 (some 201) (-36)] ∧
      context_releases (destroy_opencl_system queue_release_fails sample_system).2 = [] ∧
      ∀ e ∈ (destroy_opencl_system queue_release_fails sample_system).2, e.kind = Kind.queue) ∧
    ((destroy_opencl_system context_release_fails sample_system).1 = -1 ∧
      (destroy_opencl_system context_release_fails sample_system).2 =
        [Event.clReleaseCommandQueue 0 (some 200) CL_SUCCESS,
          Event.clReleaseCommandQueue 1 (some 201) CL_SUCCESS,
          Event.clReleaseCommandQueue 2 (some 202) CL_SUCCESS,
          Event.clReleaseContext 7 (-34)] ∧
      ∀ e ∈ (destroy_opencl_system context_release_fails sample_system).2, e.kind ≠ Kind.host) :=
  ⟨(destroy_stops_at_first_failure queue_release_fails sample_system 3 rfl rfl).1 1
      (by decide) (by decide) (by decide),
    (destroy_stops_at_first_failure context_release_fails sample_system 3 rfl rfl).2
      (by decide) (by decide)⟩

/-! ## `create_opencl_system`: the platform stage -/

/-- The allocation loop of the vendor-name buffers only calls `malloc`. -/
theorem alloc_vendor_names_kind (d : Driver) :
    ∀ (n i : Nat), ∀ e ∈ (alloc_vendor_names d i n).1, e.kind = Kind.host := by
  intro n
  induction n with
  | zero => intro i e he; simp [alloc_vendor_names] at he
  | succ n ih =>
    intro i e he
    unfold alloc_vendor_names at he
    split at he
    · simp only [List.mem_cons] at he
      rcases he with rfl | he
      · rfl
      · exact ih (i + 1) e he
    · simp only [List.mem_singleton] at he
      subst he
      rfl

/-- The loops freeing the vendor-name buffers only call `free`. -/
theorem free_vendor_names_kind (n : Nat) : ∀ e ∈ free_vendor_names n, e.kind = Kind.host := by
  intro e he
  simp only [free_vendor_names, List.mem_map] at he
  obtain ⟨j, _, rfl⟩ := he
  rfl

/-- The vendor query loop only calls `clGetPlatformInfo`. -/
theorem query_vendor_names_kind :
    ∀ (ps : List Platform), ∀ e ∈ (query_vendor_names ps).1, e.kind = Kind.platform := by
  intro ps
  induction ps with
  | nil => intro e he; simp [query_vendor_names] at he
  | cons p ps ih =>
    intro e he
    unfold query_vendor_names at he
    split at he
    · simp only [List.mem_cons] at he
      rcases he with rfl | he
      · rfl
      · exact ih e he
    · simp only [List.mem_singleton] at he
      subst he
      rfl

/-- The platform stage makes no device, context or queue call. -/
theorem resolve_platform_kind (d : Driver) (vendor : String) :
    ∀ e ∈ (resolve_platform d vendor).2, e.kind = Kind.host ∨ e.kind = Kind.platform := by
  have ha : ∀ ta i, alloc_vendor_names d 0 d.platforms.length = (ta, i) →
      ∀ e ∈ ta, e.kind = Kind.host ∨ e.kind = Kind.platform := by
    intro ta i h e he
    have := alloc_vendor_names_kind d d.platforms.length 0 e
    rw [h] at this
    exact Or.inl (this he)
  have hq : ∀ tq b, query_vendor_names d.platforms = (tq, b) →
      ∀ e ∈ tq, e.kind = Kind.host ∨ e.kind = Kind.platform := by
    intro tq b h e he
    have := query_vendor_names_kind d.platforms e
    rw [h] at this
    exact Or.inr (this he)
  have hf : ∀ n, ∀ e ∈ free_vendor_names n, e.kind = Kind.host ∨ e.kind = Kind.platform :=
    fun n e he => Or.inl (free_vendor_names_kind n e he)
  unfold resolve_platform
  dsimp only
  repeat' split
  all_goals
    simp only [List.forall_mem_append, List.forall_mem_cons, List.forall_mem_singleton]
  all_goals and_intros
  all_goals
    first
      | exact Or.inl rfl
      | exact Or.inr rfl
      | exact List.forall_mem_nil _
      | exact hf _
      | exact ha _ _ (by assumption)
      | exact hq _ _ (by assumption)

/-- The queue creation loop only calls `clCreateCommandQueue`. -/
theorem create_command_queues_kind (d : Driver) (c : Nat) (devs : List Nat) (nd : Nat) :
    ∀ (n i : Nat), ∀ e ∈ (create_command_queues d c devs nd i n).1, e.kind = Kind.queue := by
  intro n
  induction n with
  | zero => intro i e he; simp [create_command_queues] at he
  | succ n ih =>
    intro i e he
    unfold create_command_queues at he
    split at he
    · simp only [List.mem_singleton] at he
      subst he
      rfl
    · simp only [List.mem_cons] at he
      rcases he with rfl | he
      · rfl
      · exact ih (i + 1) e he

/-- The queue creation loop releases nothing. -/
theorem create_command_queues_no_release (d : Driver) (c : Nat) (devs : List Nat) (nd : Nat) :
    ∀ (n i : Nat), queue_releases (create_command_queues d c devs nd i n).1 = [] ∧
      context_releases (create_command_queues d c devs nd i n).1 = [] := by
  intro n
  induction n with
  | zero => intro i; simp [create_command_queues, queue_releases, context_releases]
  | succ n ih =>
    intro i
    have h := ih (i + 1)
    unfold create_command_queues
    split
    · simp [queue_releases, context_releases]
    · simp only [queue_releases, context_releases] at h ⊢
      simp [h.1, h.2]

/-- A failed `clCreateCommandQueue` call in the trace of the loop is the call at
which the loop stops, and it is made on the context of the loop. -/
theorem create_command_queues_mem_none (d : Driver) (c : Nat) (devs : List Nat) (nd : Nat)
    (k c1 di : Nat) (dev : Option Nat) :
    ∀ (n i : Nat),
      Event.clCreateCommandQueue k c1 di dev none ∈ (create_command_queues d c devs nd i n).1 →
      (create_command_queues d c devs nd i n).2.2 = some k ∧ c1 = c := by
  intro n
  induction n with
  | zero => intro i he; simp [create_command_queues] at he
  | succ n ih =>
    intro i he
    unfold create_command_queues at he ⊢
    split at he
    · rename_i hq
      simp only [List.mem_singleton, Event.clCreateCommandQueue.injEq] at he
      simp [hq, he.1, he.2.1]
    · rename_i q hq
      simp only [List.mem_cons, Event.clCreateCommandQueue.injEq] at he
      rcases he with he | he
      · simp at he
      · simpa [hq] using ih (i + 1) he

/-- When the loop stops at queue `k`, the calls for the queues before `k`
succeeded and the rollback releases exactly those queues, in order. -/
theorem create_command_queues_fail (d : Driver) (c : Nat) (devs : List Nat) (nd k : Nat) :
    ∀ (n i : Nat), (create_command_queues d c devs nd i n).2.2 = some k →
      i ≤ k ∧ k < i + n ∧ d.create_queue k = none ∧
      (∀ j, i ≤ j → j < k → ∃ q, d.create_queue j = some q) ∧
      queue_releases (release_created_queues d i (create_command_queues d c devs nd i n).2.1) =
        (List.range' i (k - i)).map (fun j => (j, d.create_queue j)) ∧
      context_releases (release_created_queues d i (create_command_queues d c devs nd i n).2.1)
        = [] := by
  intro n
  induction n with
  | zero => intro i h; simp [create_command_queues] at h
  | succ n ih =>
    intro i h
    unfold create_command_queues at h ⊢
    split at h
    · rename_i hq
      simp only [Option.some.injEq] at h
      subst h
      simp only [hq, release_created_queues, queue_releases, context_releases]
      refine ⟨le_refl _, by omega, trivial, ?_, by simp, by simp⟩
      intro j hj1 hj2
      omega
    · rename_i q hq
      obtain ⟨h1, h2, h3, h4, h5, h6⟩ := ih (i + 1) h
      have e : k - i = (k - (i + 1)) + 1 := by omega
      refine ⟨by omega, by omega, h3, ?_, ?_, ?_⟩
      · intro j hj1 hj2
        rcases Nat.eq_or_lt_of_le hj1 with rfl | hlt
        · exact ⟨q, hq⟩
        · exact h4 j hlt hj2
      · simp only [hq, release_created_queues]
        simp only [queue_releases, List.filterMap_cons] at h5 ⊢
        rw [h5, e, List.range'_succ]
        simp [hq]
      · simp only [hq, release_created_queues]
        simp only [context_releases, List.filterMap_cons] at h6 ⊢
        exact h6

/-- Calls on host memory and on platforms release no queue and no context. -/
theorem no_release_of_kind (t : List Event)
    (h : ∀ e ∈ t, e.kind = Kind.host ∨ e.kind = Kind.platform) :
    queue_releases t = [] ∧ context_releases t = [] ∧ queue_devices t = [] := by
  induction t with
  | nil => simp [queue_releases, context_releases, queue_devices]
  | cons e t ih =>
    have he := h e (List.mem_cons_self _ _)
    have ht := ih (fun x hx => h x (List.mem_cons_of_mem _ hx))
    simp only [queue_releases, context_releases, queue_devices] at ht ⊢
    cases e <;> simp [Event.kind] at he <;> simp [ht.1, ht.2.1, ht.2.2]

/-- The rollback loop over the created queues only calls `clReleaseCommandQueue`. -/
theorem release_created_queues_kind (d : Driver) :
    ∀ (qs : List Nat) (j : Nat), ∀ e ∈ release_created_queues d j qs, e.kind = Kind.queue := by
  intro qs
  induction qs with
  | nil => intro j e he; simp [release_created_queues] at he
  | cons q qs ih =>
    intro j e he
    simp only [release_created_queues, List.mem_cons] at he
    rcases he with rfl | he
    · rfl
    · exact ih (j + 1) e he

/-- The rollback loop over the created queues creates no queue. -/
theorem release_created_queues_not_create (d : Driver) (k c di : Nat) (dev r : Option Nat) :
    ∀ (qs : List Nat) (j : Nat),
      Event.clCreateCommandQueue k c di dev r ∉ release_created_queues d j qs := by
  intro qs
  induction qs with
  | nil => intro j he; simp [release_created_queues] at he
  | cons q qs ih =>
    intro j he
    simp only [release_created_queues, List.mem_cons, reduceCtorEq, false_or] at he
    exact ih (j + 1) he

/-- Queue releases of a concatenation. -/
theorem queue_releases_append (a b : List Event) :
    queue_releases (a ++ b) = queue_releases a ++ queue_releases b := by
  simp [queue_releases]

/-- Context releases of a concatenation. -/
theorem context_releases_append (a b : List Event) :
    context_releases (a ++ b) = context_releases a ++ context_releases b := by
  simp [context_releases]

/-! ## `create_opencl_system`: devices, context and queues -/

/-- A failed queue creation in the second stage: `NULL` is returned after the
queues created before it, and the context, have been released. -/
theorem build_system_queue_failure (d : Driver) (ty nd nq p k c di : Nat) (dev : Option Nat)
    (h : Event.clCreateCommandQueue k c di dev none ∈ (build_system d ty nd nq p).2) :
    k < nq ∧ (∀ j, j < k → ∃ q, d.create_queue j = some q) ∧
    (build_system d ty nd nq p).1 = Outcome.null ∧
    queue_releases (build_system d ty nd nq p).2 =
      (List.range k).map (fun j => (j, d.create_queue j)) ∧
    context_releases (build_system d ty nd nq p).2 = [c] ∧
    ∃ devs, Event.clCreateContext devs (some c) ∈ (build_system d ty nd nq p).2 := by
  generalize hb : build_system d ty nd nq p = r at h ⊢
  unfold build_system at hb
  dsimp only at hb
  repeat' split at hb
  all_goals subst hb
  all_goals
    simp only [List.mem_append, List.mem_cons, List.mem_singleton, List.not_mem_nil, or_false,
      false_or, reduceCtorEq] at h
  · rename_i ctx _ _ _ tc created val heq
    have hmem : Event.clCreateCommandQueue k c di dev none ∈ tc := by
      rcases h with h | h
      · exact h
      · exact absurd h (release_created_queues_not_create d k c di dev none created 0)
    have h1 := create_command_queues_mem_none d ctx (List.take nd (d.devices p ty)) nd k c di dev
      nq 0
    have h2 := create_command_queues_fail d ctx (List.take nd (d.devices p ty)) nd k nq 0
    have h3 := create_command_queues_no_release d ctx (List.take nd (d.devices p ty)) nd nq 0
    rw [heq] at h1 h2 h3
    obtain ⟨hk, hc⟩ := h1 hmem
    obtain ⟨_, hlt, _, hsome, hrel, hctx⟩ := h2 hk
    subst hc
    refine ⟨by omega, fun j hj => hsome j (Nat.zero_le j) hj, rfl, ?_, ?_, ?_⟩
    · simp only [queue_releases_append, h3.1, hrel]
      simp [queue_releases, List.range_eq_range']
    · simp only [context_releases_append, h3.2, hctx]
      simp [context_releases]
    · exact ⟨List.take nd (d.devices p ty), by simp⟩
  · rename_i ctx _ _ _ tc created heq
    have h1 := create_command_queues_mem_none d ctx (List.take nd (d.devices p ty)) nd k c di dev
      nq 0
    rw [heq] at h1
    exact absurd (h1 h).1 (by simp)

/-- A successful device query that reports fewer devices than requested: the
second stage returns `NULL`, frees the device array and the struct, and makes no
context or queue call. -/
theorem build_system_device_shortfall (d : Driver) (ty nd nq p p1 ty1 found : Nat)
    (h : Event.clGetDeviceIDs p1 ty1 nd CL_SUCCESS found ∈ (build_system d ty nd nq p).2)
    (hf : found < nd) :
    (build_system d ty nd nq p).1 = Outcome.null ∧
    Event.free (some Block.device_ids) ∈ (build_system d ty nd nq p).2 ∧
    Event.free (some Block.system) ∈ (build_system d ty nd nq p).2 ∧
    ∀ e ∈ (build_system d ty nd nq p).2, e.kind ≠ Kind.context ∧ e.kind ≠ Kind.queue := by
  have hnc : ∀ (c : Nat) (devs : List Nat) (n i : Nat),
      Event.clGetDeviceIDs p1 ty1 nd CL_SUCCESS found ∉
        (create_command_queues d c devs nd i n).1 := by
    intro c devs n i he
    have := create_command_queues_kind d c devs nd n i _ he
    simp [Event.kind] at this
  have hnr : ∀ (qs : List Nat) (j : Nat),
      Event.clGetDeviceIDs p1 ty1 nd CL_SUCCESS found ∉ release_created_queues d j qs := by
    intro qs j he
    have := release_created_queues_kind d qs j _ he
    simp [Event.kind] at this
  generalize hb : build_system d ty nd nq p = r at h ⊢
  unfold build_system at hb
  dsimp only at hb
  repeat' split at hb
  all_goals subst hb
  all_goals
    simp only [List.mem_append, List.mem_cons, List.mem_singleton, List.not_mem_nil, or_false,
      false_or, reduceCtorEq, Event.clGetDeviceIDs.injEq] at h
  all_goals try (exact absurd h.2.2.2.1.symm (by assumption))
  all_goals try (exfalso; omega)
  · simp [Event.kind]
  · rename_i ctx _ _ _ tc created val heq
    have h1 := hnc ctx (List.take nd (d.devices p ty)) nq 0
    rw [heq] at h1
    rcases h with (h | h) | h
    · exfalso; omega
    · exact absurd h h1
    · exact absurd h (hnr created 0)
  · rename_i ctx _ _ _ tc created heq
    have h1 := hnc ctx (List.take nd (d.devices p ty)) nq 0
    rw [heq] at h1
    rcases h with h | h
    · exfalso; omega
    · exact absurd h h1

/-- The two stages of `create_opencl_system` once the usage check has passed. -/
theorem create_opencl_system_eq (d : Driver) (ty nd nq : Nat) (vendor : String)
    (h0 : nd ≠ 0) (h1 : nq % nd = 0) :
    create_opencl_system d ty nd nq vendor =
      match resolve_platform d vendor with
      | (.error o, t) => (o, t)
      | (.ok platform_id, t) =>
        ((build_system d ty nd nq platform_id).1, t ++ (build_system d ty nd nq platform_id).2) := by
  unfold create_opencl_system
  simp [h0, h1]

/-- A non-empty trace means the usage check has passed. -/
theorem create_opencl_system_mem (d : Driver) (ty nd nq : Nat) (vendor : String) (e : Event)
    (h : e ∈ (create_opencl_system d ty nd nq vendor).2) : nd ≠ 0 ∧ nq % nd = 0 := by
  unfold create_opencl_system at h
  by_cases h0 : nd = 0
  · simp [h0] at h
  · by_cases h1 : nq % nd = 0
    · exact ⟨h0, h1⟩
    · simp [h0, h1] at h

/-- C4: for every `num_devices ≥ 1` and every `num_command_queues` that is not a
multiple of it, `create_opencl_system` returns `NULL` with an empty trace: no
host allocation and no driver call. -/
theorem create_rejects_uneven_queues (d : Driver) (ty nd nq : Nat) (vendor : String)
    (hnd : 1 ≤ nd) (hmod : nq % nd ≠ 0) :
    create_opencl_system d ty nd nq vendor = (Outcome.null, []) := by
  unfold create_opencl_system
  have h0 : nd ≠ 0 := by omega
  simp [h0, hmod]

/-- Witness for C4: two devices, three queues. -/
theorem create_rejects_uneven_queues_witness :
    create_opencl_system sample_driver 4 2 3 "AMD" = (Outcome.null, []) :=
  create_rejects_uneven_queues sample_driver 4 2 3 "AMD" (by decide) (by decide)

/-- C3: if the call of `clCreateCommandQueue` for queue `k` returns `NULL` (the
trace holds that call, so the calls for queues `0..k-1` succeeded), then `k` is
below `num_command_queues`, `create_opencl_system` returns `NULL`, the
`clReleaseCommandQueue` calls of the trace are exactly those for the queues
`0, ..., k-1` created before, in number `k`, and there is exactly one
`clReleaseContext` call, on the context that `clCreateContext` returned. -/
theorem queue_creation_failure_rollback (d : Driver) (ty nd nq : Nat) (vendor : String)
    (k c di : Nat) (dev : Option Nat)
    (h : Event.clCreateCommandQueue k c di dev none ∈
      (create_opencl_system d ty nd nq vendor).2) :
    k < nq ∧ (∀ j, j < k → ∃ q, d.create_queue j = some q) ∧
    (create_opencl_system d ty nd nq vendor).1 = Outcome.null ∧
    queue_releases (create_opencl_system d ty nd nq vendor).2 =
      (List.range k).map (fun j => (j, d.create_queue j)) ∧
    (queue_releases (create_opencl_system d ty nd nq vendor).2).length = k ∧
    context_releases (create_opencl_system d ty nd nq vendor).2 = [c] ∧
    ∃ devs, Event.clCreateContext devs (some c) ∈ (create_opencl_system d ty nd nq vendor).2 := by
  obtain ⟨h0, h1⟩ := create_opencl_system_mem d ty nd nq vendor _ h
  rw [create_opencl_system_eq d ty nd nq vendor h0 h1] at h ⊢
  have hk := resolve_platform_kind d vendor
  generalize resolve_platform d vendor = r at h hk ⊢
  obtain ⟨res, t⟩ := r
  cases res with
  | error o =>
    have := hk _ h
    simp [Event.kind] at this
  | ok p =>
    dsimp only at h hk ⊢
    have hmem : Event.clCreateCommandQueue k c di dev none ∈ (build_system d ty nd nq p).2 := by
      rcases List.mem_append.1 h with h | h
      · have := hk _ h
        simp [Event.kind] at this
      · exact h
    obtain ⟨b1, b2, b3, b4, b5, devs, b6⟩ :=
      build_system_queue_failure d ty nd nq p k c di dev hmem
    obtain ⟨n1, n2, _⟩ := no_release_of_kind t hk
    refine ⟨b1, b2, b3, ?_, ?_, ?_, devs, List.mem_append_right _ b6⟩
    · rw [queue_releases_append, n1, b4, List.nil_append]
    · rw [queue_releases_append, n1, b4, List.nil_append]
      simp
    · rw [context_releases_append, n2, b5, List.nil_append]

/-- C6: if the device query succeeds (the trace holds a `clGetDeviceIDs` call that
returned `CL_SUCCESS`) and reports fewer devices than `num_devices`, then
`create_opencl_system` returns `NULL`, frees the device array and the struct,
and makes no context call and no queue call. -/
theorem device_shortfall_rollback (d : Driver) (ty nd nq : Nat) (vendor : String)
    (p ty1 found : Nat)
    (h : Event.clGetDeviceIDs p ty1 nd CL_SUCCESS found ∈
      (create_opencl_system d ty nd nq vendor).2)
    (hfound : found < nd) :
    (create_opencl_system d ty nd nq vendor).1 = Outcome.null ∧
    Event.free (some Block.device_ids) ∈ (create_opencl_system d ty nd nq vendor).2 ∧
    Event.free (some Block.system) ∈ (create_opencl_system d ty nd nq vendor).2 ∧
    ∀ e ∈ (create_opencl_system d ty nd nq vendor).2,
      e.kind ≠ Kind.context ∧ e.kind ≠ Kind.queue := by
  obtain ⟨h0, h1⟩ := create_opencl_system_mem d ty nd nq vendor _ h
  rw [create_opencl_system_eq d ty nd nq vendor h0 h1] at h ⊢
  have hk := resolve_platform_kind d vendor
  generalize resolve_platform d vendor = r at h hk ⊢
  obtain ⟨res, t⟩ := r
  cases res with
  | error o =>
    have := hk _ h
    simp [Event.kind] at this
  | ok q =>
    dsimp only at h hk ⊢
    have hmem : Event.clGetDeviceIDs p ty1 nd CL_SUCCESS found ∈ (build_system d ty nd nq q).2 := by
      rcases List.mem_append.1 h with h | h
      · have := hk _ h
        simp [Event.kind] at this
      · exact h
    obtain ⟨b1, b2, b3, b4⟩ := build_system_device_shortfall d ty nd nq q p ty1 found hmem hfound
    refine ⟨b1, List.mem_append_right _ b2, List.mem_append_right _ b3, ?_⟩
    intro e he
    rcases List.mem_append.1 he with he | he
    · rcases hk e he with hh | hh <;> simp [hh]
    · exact b4 e he

/-- Witness for C3: on the machine where the creation of queue 2 fails, with two
devices and four queues, queues 0 and 1 are released, then the context. -/
theorem queue_creation_failure_rollback_witness :
    2 < 4 ∧ (∀ j, j < 2 → ∃ q, queue_creation_fails.create_queue j = some q) ∧
    (create_opencl_system queue_creation_fails 4 2 4 "AMD").1 = Outcome.null ∧
    queue_releases (create_opencl_system queue_creation_fails 4 2 4 "AMD").2 =
      [(0, some 200), (1, some 201)] ∧
    (queue_releases (create_opencl_system queue_creation_fails 4 2 4 "AMD").2).length = 2 ∧
    context_releases (create_opencl_system queue_creation_fails 4 2 4 "AMD").2 = [7] ∧
    ∃ devs, Event.clCreateContext devs (some 7) ∈
      (create_opencl_system queue_creation_fails 4 2 4 "AMD").2 :=
  queue_creation_failure_rollback queue_creation_fails 4 2 4 "AMD" 2 7 1 (some 101) (by decide)

/-- Witness for C6: three devices are requested from the platform that has two. -/
theorem device_shortfall_rollback_witness :
    (create_opencl_system sample_driver 4 3 3 "AMD").1 = Outcome.null ∧
    Event.free (some Block.device_ids) ∈ (create_opencl_system sample_driver 4 3 3 "AMD").2 ∧
    Event.free (some Block.system) ∈ (create_opencl_system sample_driver 4 3 3 "AMD").2 ∧
    ∀ e ∈ (create_opencl_system sample_driver 4 3 3 "AMD").2,
      e.kind ≠ Kind.context ∧ e.kind ≠ Kind.queue :=
  device_shortfall_rollback sample_driver 4 3 3 "AMD" 11 4 2 (by decide) (by decide)

/-- C1, evaluation at two devices and two queues: the call succeeds and creates
queue 1 on `device_ids[0]`, where the specified index `1 / (2 / 2)` is 1; device 1
receives no queue. -/
theorem queue_device_index_mismatch :
    (create_opencl_system sample_driver 4 2 2 "AMD").1 =
      Outcome.system ⟨11, 2, [100, 101], 7, 2, [200, 201]⟩ ∧
    queue_devices (create_opencl_system sample_driver 4 2 2 "AMD").2 = [(0, 0), (1, 0)] ∧
    Event.clCreateCommandQueue 1 7 0 (some 100) (some 201) ∈
      (create_opencl_system sample_driver 4 2 2 "AMD").2 ∧
    spec_device_index 2 2 1 = 1 := by
  decide

/-- C10, evaluation at one device and two queues: the device array has one
element and queue 1 is created with `device_ids[1]`, past its end. -/
theorem queue_device_index_out_of_bounds :
    Event.clGetDeviceIDs 10 4 1 CL_SUCCESS 1 ∈
      (create_opencl_system sample_driver 4 1 2 "Intel").2 ∧
    Event.clCreateContext [90] (some 7) ∈ (create_opencl_system sample_driver 4 1 2 "Intel").2 ∧
    Event.clCreateCommandQueue 1 7 1 none (some 201) ∈
      (create_opencl_system sample_driver 4 1 2 "Intel").2 ∧
    queue_devices (create_opencl_system sample_driver 4 1 2 "Intel").2 = [(0, 0), (1, 1)] ∧
    ¬ (1 < 1) := by
  decide

/-- C2, evaluation when the `malloc` of `platform_ids` fails: `NULL` is returned
after three calls, none of which frees the struct allocated by the first. -/
theorem platform_ids_alloc_failure_leaks :
    create_opencl_system platform_ids_alloc_fails 4 2 4 "AMD" =
      (Outcome.null, [Event.malloc Block.system true, Event.clGetPlatformIDs 0 CL_SUCCESS,
        Event.malloc Block.platform_ids false]) ∧
    leaked (create_opencl_system platform_ids_alloc_fails 4 2 4 "AMD").2 =
      [Resource.block Block.system] := by
  decide


end OpenCLHost
